import Mathlib

/-!
Verification of the GPU submission-synchronization core of the vulkano
repository: the fence-signal state machine (src/vulkano/src/sync/future/fence_signal.rs),
the join combinator (src/vulkano/src/sync/future/join.rs), the pipeline-stage and
access-flag bitsets (src/vulkano/src/sync/pipeline.rs) and the vertex-buffer binding
command (src/vulkano/src/command_buffer/commands_raw/bind_vertex_buffers.rs).

External collaborators (devices, queues, fences, submit builders) are opaque in the
source; they are modelled as opaque tokens plus outcome oracles. Device submissions
and swapchain presents are recorded as an explicit event trace so that statements
about the number of submissions can be made. Assertions and debug assertions are
modelled as panics (debug-build semantics), as are the unwrap and unimplemented
macros of the source.
-/

namespace Vulkano

/-- Opaque submission error, standing in for the boxed error objects of the source. -/
abbrev Err := Nat

/-- Opaque queue handle. Queues have identity comparison. -/
abbrev Queue := Nat

/-- Identity comparison of queues, modelling Queue::is_same of the source. -/
def Queue.is_same (a b : Queue) : Bool := a == b

/-- Opaque fence handle. -/
abbrev Fence := Nat

/-- Semaphore-wait submit builder: a set of semaphores that successor work must wait
on. The concrete builder type lives outside src/; only the semaphore set matters
here. -/
structure SubmitSemaphoresWaitBuilder where
  semaphores : List Nat
deriving DecidableEq, Repr

/-- Modelled from the spec: merging two semaphore-wait builders concatenates the
semaphore sets, preserving order of semaphore waits. The merge body is outside
src/; no claim is decided by it. -/
def SubmitSemaphoresWaitBuilder.merge (a b : SubmitSemaphoresWaitBuilder) :
    SubmitSemaphoresWaitBuilder :=
  ⟨a.semaphores ++ b.semaphores⟩

/-- Command-buffer submit builder. The concrete type lives outside src/; the fields
kept are the ones the in-scope code observes: has_fence, the semaphore waits and
the command buffers. -/
structure SubmitCommandBufferBuilder where
  hasFence : Bool
  waitSemaphores : List Nat
  commandBuffers : List Nat
deriving DecidableEq, Repr

/-- SubmitCommandBufferBuilder::new of the source: a fresh builder with nothing
attached and no fence. -/
def SubmitCommandBufferBuilder.new : SubmitCommandBufferBuilder :=
  ⟨false, [], []⟩

/-- set_fence_signal attaches the fence to the builder. -/
def SubmitCommandBufferBuilder.set_fence_signal (b : SubmitCommandBufferBuilder) :
    SubmitCommandBufferBuilder :=
  ⟨true, b.waitSemaphores, b.commandBuffers⟩

/-- Conversion of a semaphore-wait builder into a command-buffer submit builder,
modelling the into() call in the SemaphoresWait arm of flush_impl. The resulting
builder carries no fence, which is what the debug assertion there checks. -/
def SubmitSemaphoresWaitBuilder.intoCommandBuffer (s : SubmitSemaphoresWaitBuilder) :
    SubmitCommandBufferBuilder :=
  ⟨false, s.semaphores, []⟩

/-- Modelled from the spec: merging command-buffer builders appends the command
buffers, waits and signals of the right builder into the left one. The merge body
is outside src/; no claim is decided by it. -/
def SubmitCommandBufferBuilder.merge (a b : SubmitCommandBufferBuilder) :
    SubmitCommandBufferBuilder :=
  ⟨a.hasFence || b.hasFence, a.waitSemaphores ++ b.waitSemaphores,
   a.commandBuffers ++ b.commandBuffers⟩

/-- Swapchain-present submit builder, opaque apart from identity. -/
structure SubmitPresentBuilder where
  swapchains : List Nat
deriving DecidableEq, Repr

/-- The submission accumulator SubmitAnyBuilder with its four variants, from
command_buffer/submit (declared outside src/ but fully determined by its use in
join.rs and fence_signal.rs). -/
inductive SubmitAnyBuilder
  | Empty
  | SemaphoresWait (b : SubmitSemaphoresWaitBuilder)
  | CommandBuffer (b : SubmitCommandBufferBuilder)
  | QueuePresent (b : SubmitPresentBuilder)
deriving DecidableEq, Repr

/-- Pipeline stage bitset from src/vulkano/src/sync/pipeline.rs: seventeen boolean
fields generated by the pipeline_stages macro. -/
structure PipelineStages where
  top_of_pipe : Bool
  draw_indirect : Bool
  vertex_input : Bool
  vertex_shader : Bool
  tessellation_control_shader : Bool
  tessellation_evaluation_shader : Bool
  geometry_shader : Bool
  fragment_shader : Bool
  early_fragment_tests : Bool
  late_fragment_tests : Bool
  color_attachment_output : Bool
  compute_shader : Bool
  transfer : Bool
  bottom_of_pipe : Bool
  host : Bool
  all_graphics : Bool
  all_commands : Bool
deriving DecidableEq, Repr

/-- PipelineStages::none builds the bitset with none of the stages set. -/
def PipelineStages.none : PipelineStages :=
  ⟨false, false, false, false, false, false, false, false, false, false, false,
   false, false, false, false, false, false⟩

/-- BitOr for PipelineStages: fieldwise boolean or. -/
def PipelineStages.bitor (a b : PipelineStages) : PipelineStages :=
  ⟨a.top_of_pipe || b.top_of_pipe,
   a.draw_indirect || b.draw_indirect,
   a.vertex_input || b.vertex_input,
   a.vertex_shader || b.vertex_shader,
   a.tessellation_control_shader || b.tessellation_control_shader,
   a.tessellation_evaluation_shader || b.tessellation_evaluation_shader,
   a.geometry_shader || b.geometry_shader,
   a.fragment_shader || b.fragment_shader,
   a.early_fragment_tests || b.early_fragment_tests,
   a.late_fragment_tests || b.late_fragment_tests,
   a.color_attachment_output || b.color_attachment_output,
   a.compute_shader || b.compute_shader,
   a.transfer || b.transfer,
   a.bottom_of_pipe || b.bottom_of_pipe,
   a.host || b.host,
   a.all_graphics || b.all_graphics,
   a.all_commands || b.all_commands⟩

/-- Access flag bitset from src/vulkano/src/sync/pipeline.rs: seventeen boolean
fields generated by the access_flags macro. -/
structure AccessFlagBits where
  indirect_command_read : Bool
  index_read : Bool
  vertex_attribute_read : Bool
  uniform_read : Bool
  input_attachment_read : Bool
  shader_read : Bool
  shader_write : Bool
  color_attachment_read : Bool
  color_attachment_write : Bool
  depth_stencil_attachment_read : Bool
  depth_stencil_attachment_write : Bool
  transfer_read : Bool
  transfer_write : Bool
  host_read : Bool
  host_write : Bool
  memory_read : Bool
  memory_write : Bool
deriving DecidableEq, Repr

/-- AccessFlagBits::all builds the bitset with every bit set. -/
def AccessFlagBits.all : AccessFlagBits :=
  ⟨true, true, true, true, true, true, true, true, true, true, true, true, true,
   true, true, true, true⟩

/-- AccessFlagBits::none builds the bitset with none of the bits set. -/
def AccessFlagBits.none : AccessFlagBits :=
  ⟨false, false, false, false, false, false, false, false, false, false, false,
   false, false, false, false, false, false⟩

/-- BitOr for AccessFlagBits: fieldwise boolean or. -/
def AccessFlagBits.bitor (a b : AccessFlagBits) : AccessFlagBits :=
  ⟨a.indirect_command_read || b.indirect_command_read,
   a.index_read || b.index_read,
   a.vertex_attribute_read || b.vertex_attribute_read,
   a.uniform_read || b.uniform_read,
   a.input_attachment_read || b.input_attachment_read,
   a.shader_read || b.shader_read,
   a.shader_write || b.shader_write,
   a.color_attachment_read || b.color_attachment_read,
   a.color_attachment_write || b.color_attachment_write,
   a.depth_stencil_attachment_read || b.depth_stencil_attachment_read,
   a.depth_stencil_attachment_write || b.depth_stencil_attachment_write,
   a.transfer_read || b.transfer_read,
   a.transfer_write || b.transfer_write,
   a.host_read || b.host_read,
   a.host_write || b.host_write,
   a.memory_read || b.memory_read,
   a.memory_write || b.memory_write⟩

/-!
Vertex-buffer binding command, from
src/vulkano/src/command_buffer/commands_raw/bind_vertex_buffers.rs.
-/

/-- One decoded vertex-buffer entry, as produced by the VertexSource decode call in
CmdBindVertexBuffers::new: the owning device of the buffer, its raw handle and the
offset. -/
structure BufferBinding where
  device : Nat
  raw : Nat
  offset : Nat
deriving DecidableEq, Repr

/-- The CmdBindVertexBuffers command: raw buffer handles, offsets, and the device of
the first buffer, which the source stores, as its own comment says, so that it can
be compared with the device of the command buffer. -/
structure CmdBindVertexBuffers where
  raw_buffers : List Nat
  offsets : List Nat
  device : Nat
deriving DecidableEq, Repr

/-- CmdBindVertexBuffers::new: decode the source into buffer entries, take the device
of the first entry, collect the raw handles and offsets. The first().unwrap() call of
the source panics on an empty decode result, modelled as Option.none. -/
def CmdBindVertexBuffers.new (decoded : List BufferBinding) :
    Option CmdBindVertexBuffers :=
  match decoded.head? with
  | Option.none => Option.none
  | Option.some first =>
    Option.some ⟨decoded.map (fun b => b.raw), decoded.map (fun b => b.offset),
                 first.device⟩

/-- Structured error type for adding a command to a builder (CommandAddError of the
source, declared outside src/). Its variants are irrelevant here because the add
implementation under verification never returns it. -/
inductive CommandAddError
  | anyError
deriving DecidableEq, Repr

/-- Raw command-buffer builder (the source names it with an Unsafe prefix): the
owning device and the record of the native bind calls issued so far. -/
structure RawCommandBufferBuilder where
  device : Nat
  recorded : List (List Nat × List Nat)
deriving DecidableEq, Repr

/-- The AddCommand implementation for CmdBindVertexBuffers on the raw builder: it
issues the native CmdBindVertexBuffers call with the stored raw handles and offsets
and returns Ok. The source performs no device comparison in this function. -/
def RawCommandBufferBuilder.addBindVertexBuffers (self : RawCommandBufferBuilder)
    (command : CmdBindVertexBuffers) :
    Except CommandAddError RawCommandBufferBuilder :=
  .ok ⟨self.device, self.recorded ++ [(command.raw_buffers, command.offsets)]⟩

/-!
Join combinator, from src/vulkano/src/sync/future/join.rs.
-/

/-- JoinFuture::queue, as a function of the queues reported by the two children and
their queue_change_allowed flags. Transcribed from the source match. -/
def JoinFuture.queue (q1 q2 : Option Queue) (firstAllowed secondAllowed : Bool) :
    Option Queue :=
  match q1, q2 with
  | Option.some a, Option.some b =>
    if Queue.is_same a b then Option.some a
    else if firstAllowed then Option.some b
    else if secondAllowed then Option.some a
    else Option.none
  | Option.some q, Option.none => Option.some q
  | Option.none, Option.some q => Option.some q
  | Option.none, Option.none => Option.none

/-- JoinFuture::queue_change_allowed is the conjunction of the children. -/
def JoinFuture.queue_change_allowed (firstAllowed secondAllowed : Bool) : Bool :=
  firstAllowed && secondAllowed

/-- Answer of a check_buffer_access or check_image_access call: Err means the chain
does not know, Ok carries the optional latest usage record. -/
abbrev AccessCheckResult := Except Unit (Option (PipelineStages × AccessFlagBits))

/-- Result::is_ok on an access check answer. -/
def accessIsOk : AccessCheckResult → Bool
  | .ok _ => true
  | .error _ => false

/-- JoinFuture::check_buffer_access as a function of the answers of the two
children. The first component is the condition under which the debug assertion of
the source fires (exclusive access requested and both sides Ok); the second is the
value of the match that follows the assertion, which in a release build is the
returned answer. -/
def JoinFuture.check_buffer_access (exclusive : Bool)
    (first second : AccessCheckResult) : Bool × AccessCheckResult :=
  (exclusive && (accessIsOk first && accessIsOk second),
   match first, second with
   | .ok v, .error _ => .ok v
   | .error _, .ok v => .ok v
   | .error _, .error _ => .error ()
   | .ok Option.none, .ok Option.none => .ok Option.none
   | .ok (Option.some a), .ok Option.none => .ok (Option.some a)
   | .ok Option.none, .ok (Option.some a) => .ok (Option.some a)
   | .ok (Option.some (a1, a2)), .ok (Option.some (b1, b2)) =>
     .ok (Option.some (a1.bitor b1, a2.bitor b2)))

/-- JoinFuture::check_image_access: the source body is identical to the buffer
variant. -/
def JoinFuture.check_image_access (exclusive : Bool)
    (first second : AccessCheckResult) : Bool × AccessCheckResult :=
  (exclusive && (accessIsOk first && accessIsOk second),
   match first, second with
   | .ok v, .error _ => .ok v
   | .error _, .ok v => .ok v
   | .error _, .error _ => .error ()
   | .ok Option.none, .ok Option.none => .ok Option.none
   | .ok (Option.some a), .ok Option.none => .ok (Option.some a)
   | .ok Option.none, .ok (Option.some a) => .ok (Option.some a)
   | .ok (Option.some (a1, a2)), .ok (Option.some (b1, b2)) =>
     .ok (Option.some (a1.bitor b1, a2.bitor b2)))

instance {ε α : Type} [DecidableEq ε] [DecidableEq α] : DecidableEq (Except ε α) :=
  fun a b =>
  match a, b with
  | .ok x, .ok y => if h : x = y then .isTrue (by simp [h]) else .isFalse (by simp [h])
  | .error x, .error y =>
    if h : x = y then .isTrue (by simp [h]) else .isFalse (by simp [h])
  | .ok _, .error _ => .isFalse (by simp)
  | .error _, .ok _ => .isFalse (by simp)

/-- Environment of one JoinFuture::build_submission call: the queues the two
children report (the source unwraps them before an eager submit) and the outcome
the device gives to an eager submit of the left and of the right accumulator. -/
structure JoinEnv where
  firstQueue : Option Queue
  secondQueue : Option Queue
  submitFirstOutcome : Except Err Unit
  submitSecondOutcome : Except Err Unit
deriving DecidableEq, Repr

/-- Device interaction recorded during a join merge: an eager submit of the left or
of the right accumulator, with its outcome. -/
inductive JoinSubmitEvent
  | first (ok : Bool)
  | second (ok : Bool)
deriving DecidableEq, Repr

/-- Result of the merge performed by JoinFuture::build_submission: a merged
accumulator, a propagated submit error, or a panic (queue unwrap on None, or the
unimplemented cells of the merge table). -/
inductive MergeResult
  | ok (builder : SubmitAnyBuilder)
  | err (e : Err)
  | panic
deriving DecidableEq, Repr

/-- True when the merge returned a propagated error. -/
def MergeResult.isErrResult : MergeResult → Bool
  | .err _ => true
  | _ => false

/-- The merge match of JoinFuture::build_submission, transcribed arm by arm from the
source, applied to the accumulators built by the two children. Eager submits are
recorded in the event trace; try propagation stops at the first submit error; the
CommandBuffer versus QueuePresent cells are unimplemented in the source and
panic. -/
def JoinFuture.build_submission_merge (env : JoinEnv) :
    SubmitAnyBuilder → SubmitAnyBuilder → MergeResult × List JoinSubmitEvent
  | .Empty, b => (.ok b, [])
  | a, .Empty => (.ok a, [])
  | .SemaphoresWait a, .SemaphoresWait b =>
    (.ok (.SemaphoresWait (a.merge b)), [])
  | .SemaphoresWait a, .CommandBuffer _b =>
    (match env.secondQueue with
     | Option.none => (.panic, [])
     | Option.some _ =>
       match env.submitSecondOutcome with
       | .ok _ => (.ok (.SemaphoresWait a), [.second true])
       | .error e => (.err e, [.second false]))
  | .CommandBuffer _a, .SemaphoresWait b =>
    (match env.firstQueue with
     | Option.none => (.panic, [])
     | Option.some _ =>
       match env.submitFirstOutcome with
       | .ok _ => (.ok (.SemaphoresWait b), [.first true])
       | .error e => (.err e, [.first false]))
  | .SemaphoresWait a, .QueuePresent _b =>
    (match env.secondQueue with
     | Option.none => (.panic, [])
     | Option.some _ =>
       match env.submitSecondOutcome with
       | .ok _ => (.ok (.SemaphoresWait a), [.second true])
       | .error e => (.err e, [.second false]))
  | .QueuePresent _a, .SemaphoresWait b =>
    (match env.firstQueue with
     | Option.none => (.panic, [])
     | Option.some _ =>
       match env.submitFirstOutcome with
       | .ok _ => (.ok (.SemaphoresWait b), [.first true])
       | .error e => (.err e, [.first false]))
  | .CommandBuffer a, .CommandBuffer b =>
    (.ok (.CommandBuffer (a.merge b)), [])
  | .QueuePresent _a, .QueuePresent _b =>
    (match env.firstQueue with
     | Option.none => (.panic, [])
     | Option.some _ =>
       match env.submitFirstOutcome with
       | .error e => (.err e, [.first false])
       | .ok _ =>
         match env.secondQueue with
         | Option.none => (.panic, [.first true])
         | Option.some _ =>
           match env.submitSecondOutcome with
           | .ok _ => (.ok .Empty, [.first true, .second true])
           | .error e => (.err e, [.first true, .second false]))
  | .CommandBuffer _a, .QueuePresent _b => (.panic, [])
  | .QueuePresent _a, .CommandBuffer _b => (.panic, [])

/-!
Fence-signal node, from src/vulkano/src/sync/future/fence_signal.rs. The
predecessor future is an opaque token of type F; its behaviour (queue, the
accumulator its build_submission returns) and the outcome of every device call are
supplied by an environment record, one per call.
-/

variable {F G : Type}

/-- The state of a fence-signal future, with the spelling of the source. Pending,
PartiallyFlushed and Flushed own the predecessor and the fence; Cleaned and
Poisonned own nothing. -/
inductive FenceSignalFutureState (F : Type)
  | Pending (prev : F) (fence : Fence)
  | PartiallyFlushed (prev : F) (fence : Fence)
  | Flushed (prev : F) (fence : Fence)
  | Cleaned
  | Poisonned
deriving DecidableEq, Repr

/-- Environment of one flush_impl call: what previous.queue() and
previous.build_submission() return, and the outcome the device gives to each
possible submit call site of flush_impl (the fresh fence-only builder of the Empty
arm, the converted builder of the SemaphoresWait arm, the fence-carrying builder of
the CommandBuffer arm, the present of step one and the fence-only builder of step
two of the QueuePresent arm). -/
structure FlushEnv where
  prevQueue : Option Queue
  prevBuild : Except Err SubmitAnyBuilder
  submitEmptyOutcome : Except Err Unit
  submitSemOutcome : Except Err Unit
  submitCbOutcome : Except Err Unit
  submitPresentOutcome : Except Err Unit
  submitFenceOnlyOutcome : Except Err Unit
deriving DecidableEq, Repr

/-- Device interaction recorded during fence-signal operations: a queue submit of a
command-buffer builder, tagged with whether the builder carried the fence of this
node, or a swapchain present; each with its outcome. -/
inductive SubmitEvent
  | submit (withFence : Bool) (ok : Bool)
  | present (ok : Bool)
deriving DecidableEq, Repr

/-- Result of an operation on a mutex-protected state: the value left in the state
together with a return value, a returned error, or a panic (unwrap, assert or
debug_assert failure; the state shown is the one the unwinding leaves behind). -/
inductive OpResult (σ : Type) (α : Type)
  | ok (st : σ) (val : α)
  | err (st : σ) (e : Err)
  | panic (st : σ)
deriving DecidableEq, Repr

/-- The state component of an operation result. -/
def opState : OpResult σ α → σ
  | .ok st _ => st
  | .err st _ => st
  | .panic st => st

/-- True when the operation panicked. -/
def opPanicked : OpResult σ α → Bool
  | .panic _ => true
  | _ => false

/-- True unless the operation returned Ok. -/
def opNotOk : OpResult σ α → Bool
  | .ok _ _ => false
  | _ => true

/-- The part of flush_impl reached from the Pending and PartiallyFlushed states,
after the state has been replaced by Poisonned and the predecessor and fence moved
out. Transcribed from the source: queue unwrap, then build_submission with try
propagation (on error the Poisonned placeholder is what remains in the state), then
the dispatch on the accumulator variant, then the outcome handling that stores
Flushed on success, Pending on a full failure and PartiallyFlushed on a partial
failure. Debug assertions and the has_fence assertion panic, leaving Poisonned. -/
def FenceSignalFuture.flush_impl_dispatch (env : FlushEnv) (prev : F) (fence : Fence)
    (partiallyFlushed : Bool) :
    OpResult (FenceSignalFutureState F) Unit × List SubmitEvent :=
  match env.prevQueue with
  | Option.none => (.panic .Poisonned, [])
  | Option.some _queue =>
    match env.prevBuild with
    | .error e => (.err .Poisonned e, [])
    | .ok .Empty =>
      if partiallyFlushed then (.panic .Poisonned, [])
      else
        match env.submitEmptyOutcome with
        | .ok _ => (.ok (.Flushed prev fence) (), [.submit true true])
        | .error e => (.err (.Pending prev fence) e, [.submit true false])
    | .ok (.SemaphoresWait _sem) =>
      if partiallyFlushed then (.panic .Poisonned, [])
      else
        match env.submitSemOutcome with
        | .ok _ => (.ok (.Flushed prev fence) (), [.submit false true])
        | .error e => (.err (.Pending prev fence) e, [.submit false false])
    | .ok (.CommandBuffer cb) =>
      if partiallyFlushed then (.panic .Poisonned, [])
      else if cb.hasFence then (.panic .Poisonned, [])
      else
        match env.submitCbOutcome with
        | .ok _ => (.ok (.Flushed prev fence) (), [.submit true true])
        | .error e => (.err (.Pending prev fence) e, [.submit true false])
    | .ok (.QueuePresent _p) =>
      if partiallyFlushed then
        match env.submitFenceOnlyOutcome with
        | .ok _ => (.ok (.Flushed prev fence) (), [.submit true true])
        | .error e => (.err (.PartiallyFlushed prev fence) e, [.submit true false])
      else
        match env.submitPresentOutcome with
        | .error e => (.err (.Pending prev fence) e, [.present false])
        | .ok _ =>
          match env.submitFenceOnlyOutcome with
          | .ok _ =>
            (.ok (.Flushed prev fence) (), [.present true, .submit true true])
          | .error e =>
            (.err (.PartiallyFlushed prev fence) e,
             [.present true, .submit true false])

/-- FenceSignalFuture::flush_impl. The Flushed, Cleaned and Poisonned states are
restored unchanged and Ok is returned without touching the device; Pending and
PartiallyFlushed proceed to the dispatch. -/
def FenceSignalFuture.flush_impl (env : FlushEnv) :
    FenceSignalFutureState F →
    OpResult (FenceSignalFutureState F) Unit × List SubmitEvent
  | .Pending prev fence => FenceSignalFuture.flush_impl_dispatch env prev fence false
  | .PartiallyFlushed prev fence =>
    FenceSignalFuture.flush_impl_dispatch env prev fence true
  | .Flushed prev fence => (.ok (.Flushed prev fence) (), [])
  | .Cleaned => (.ok .Cleaned (), [])
  | .Poisonned => (.ok .Poisonned (), [])

/-- FenceSignalFuture::cleanup_finished_impl: in the Flushed state, probe the fence
with a zero timeout and move to Cleaned when the wait succeeds; in every other case
leave the state alone. -/
def FenceSignalFuture.cleanup_finished_impl (fenceWaitZero : Except Err Unit) :
    FenceSignalFutureState F → FenceSignalFutureState F
  | .Flushed prev fence =>
    (match fenceWaitZero with
     | .ok _ => .Cleaned
     | .error _ => .Flushed prev fence)
  | st => st

/-- Environment of one build_submission call: the flush environment plus the
outcome of the long fence wait performed in the Flushed state. -/
structure BuildEnv where
  flushEnv : FlushEnv
  fenceWaitOutcome : Except Err Unit
deriving DecidableEq, Repr

/-- FenceSignalFuture::build_submission: run flush_impl under the lock, propagate
its error; then in the Flushed state wait on the fence (propagating a wait error),
in Cleaned and Poisonned do nothing, and return the Empty accumulator. The Pending
and PartiallyFlushed cases are the unreachable arms of the source and panic. -/
def FenceSignalFuture.build_submission (env : BuildEnv)
    (st : FenceSignalFutureState F) :
    OpResult (FenceSignalFutureState F) SubmitAnyBuilder × List SubmitEvent :=
  match FenceSignalFuture.flush_impl env.flushEnv st with
  | (.err st1 e, tr) => (.err st1 e, tr)
  | (.panic st1, tr) => (.panic st1, tr)
  | (.ok st1 _, tr) =>
    match st1 with
    | .Flushed prev fence =>
      (match env.fenceWaitOutcome with
       | .ok _ => (.ok (.Flushed prev fence) .Empty, tr)
       | .error e => (.err (.Flushed prev fence) e, tr))
    | .Cleaned => (.ok .Cleaned .Empty, tr)
    | .Poisonned => (.ok .Poisonned .Empty, tr)
    | .Pending prev fence => (.panic (.Pending prev fence), tr)
    | .PartiallyFlushed prev fence => (.panic (.PartiallyFlushed prev fence), tr)

/-- The GpuFuture implementation for a shared reference-counted handle around a
fence-signal future delegates build_submission to the inner node. -/
def ArcFenceSignalFuture.build_submission (env : BuildEnv)
    (st : FenceSignalFutureState F) :
    OpResult (FenceSignalFutureState F) SubmitAnyBuilder × List SubmitEvent :=
  FenceSignalFuture.build_submission env st

/-- Return value of signal_finished: whether the call was forwarded to the
predecessor, or a panic (the unreachable arm of the source). -/
inductive SignalFinishedResult
  | ok (signalledPrev : Bool)
  | panic
deriving DecidableEq, Repr

/-- FenceSignalFuture::signal_finished: forward to the predecessor in the Flushed
state, do nothing in Cleaned and Poisonned, and hit the unreachable arm otherwise.
The state is never modified. -/
def FenceSignalFuture.signal_finished :
    FenceSignalFutureState F → SignalFinishedResult × FenceSignalFutureState F
  | .Flushed prev fence => (.ok true, .Flushed prev fence)
  | .Cleaned => (.ok false, .Cleaned)
  | .Poisonned => (.ok false, .Poisonned)
  | .Pending prev fence => (.panic, .Pending prev fence)
  | .PartiallyFlushed prev fence => (.panic, .PartiallyFlushed prev fence)

/-- What the Drop implementation does after its final flush. The source moves the
state out of the enum (leaving Cleaned in the mutex as the move-out placeholder)
and the object is deallocated when drop returns, so the action, not a successor
state, is the observable outcome. -/
inductive DropOutcome (F : Type)
  | waitThenSignal (prev : F) (fence : Fence)
  | nothing
  | dropPrevious (prev : F)
  | panicked
deriving DecidableEq, Repr

/-- The dispatch of Drop on the state left by the final flush: Flushed blocks on
the fence and signals the predecessor, Cleaned and Poisonned do nothing, Pending
and PartiallyFlushed just drop the predecessor. -/
def FenceSignalFuture.drop_dispatch :
    FenceSignalFutureState F → DropOutcome F
  | .Flushed prev fence => .waitThenSignal prev fence
  | .Cleaned => .nothing
  | .Poisonned => .nothing
  | .Pending prev _fence => .dropPrevious prev
  | .PartiallyFlushed prev _fence => .dropPrevious prev

/-- The Drop implementation: flush once more ignoring a returned error (a panic
still propagates), then dispatch on the resulting state. -/
def FenceSignalFuture.drop (env : FlushEnv) (st : FenceSignalFutureState F) :
    DropOutcome F × List SubmitEvent :=
  match FenceSignalFuture.flush_impl env st with
  | (.panic _, tr) => (.panicked, tr)
  | (.ok st1 _, tr) => (FenceSignalFuture.drop_dispatch st1, tr)
  | (.err st1 _, tr) => (FenceSignalFuture.drop_dispatch st1, tr)

/-- A sequence of flush calls, each with its own environment, accumulating the
submission trace. After an error or a panic the state shown by opState is the one
left in the mutex, from which a later call may retry. -/
def FenceSignalFuture.flushMany :
    List FlushEnv → FenceSignalFutureState F →
    FenceSignalFutureState F × List SubmitEvent
  | [], st => (st, [])
  | env :: envs, st =>
    let r := FenceSignalFuture.flush_impl env st
    let rest := FenceSignalFuture.flushMany envs (opState r.1)
    (rest.1, r.2 ++ rest.2)

/-- Number of successful submits carrying the fence of this node in a trace. -/
def countFenceOk : List SubmitEvent → Nat
  | [] => 0
  | .submit true true :: tl => countFenceOk tl + 1
  | _ :: tl => countFenceOk tl

/-- Number of successful swapchain presents in a trace. -/
def countPresentOk : List SubmitEvent → Nat
  | [] => 0
  | .present true :: tl => countPresentOk tl + 1
  | _ :: tl => countPresentOk tl

/-- Number of successful queue submits in a trace, counted whether or not the
builder carried the fence: the SemaphoresWait arm of flush_impl submits the
converted builder without setting the fence, and that device submission must be
counted too. -/
def countSubmitOk : List SubmitEvent → Nat
  | [] => 0
  | .submit _ true :: tl => countSubmitOk tl + 1
  | _ :: tl => countSubmitOk tl

/-- JoinFuture::flush for a join whose two children are fence-signal nodes: flush
the first child, propagate with try, then flush the second. Events are tagged with
the side that produced them (false for the first child). -/
def JoinFuture.flush (e1 e2 : FlushEnv)
    (s : FenceSignalFutureState F × FenceSignalFutureState G) :
    OpResult (FenceSignalFutureState F × FenceSignalFutureState G) Unit ×
      List (Bool × SubmitEvent) :=
  match FenceSignalFuture.flush_impl e1 s.1 with
  | (.err st1 e, tr) => (.err (st1, s.2) e, tr.map (fun ev => (false, ev)))
  | (.panic st1, tr) => (.panic (st1, s.2), tr.map (fun ev => (false, ev)))
  | (.ok st1 _, tr1) =>
    match FenceSignalFuture.flush_impl e2 s.2 with
    | (.ok st2 _, tr2) =>
      (.ok (st1, st2) (),
       tr1.map (fun ev => (false, ev)) ++ tr2.map (fun ev => (true, ev)))
    | (.err st2 e, tr2) =>
      (.err (st1, st2) e,
       tr1.map (fun ev => (false, ev)) ++ tr2.map (fun ev => (true, ev)))
    | (.panic st2, tr2) =>
      (.panic (st1, st2),
       tr1.map (fun ev => (false, ev)) ++ tr2.map (fun ev => (true, ev)))

/-- A sequence of flush calls on a join of two fence-signal nodes. -/
def JoinFuture.flushMany :
    List (FlushEnv × FlushEnv) →
    FenceSignalFutureState F × FenceSignalFutureState G →
    (FenceSignalFutureState F × FenceSignalFutureState G) ×
      List (Bool × SubmitEvent)
  | [], s => (s, [])
  | (e1, e2) :: envs, s =>
    let r := JoinFuture.flush e1 e2 s
    let rest := JoinFuture.flushMany envs (opState r.1)
    (rest.1, r.2 ++ rest.2)

/-- The events of one side of a tagged trace. -/
def sideEvents (side : Bool) (tr : List (Bool × SubmitEvent)) : List SubmitEvent :=
  (tr.filter (fun p => p.1 == side)).map (fun p => p.2)

/-!
Predicates transcribed from the wording of the specification, to be compared with
the behaviour of the definitions above, and small proof devices.
-/

/-- Follows the words of the spec claim about flush_impl outcomes on a pending or
partially flushed node: success leaves Flushed with the same predecessor and
fence; a full failure restores Pending and returns the error; a partial failure
leaves PartiallyFlushed and returns the error. -/
def flushSpecOutcome (p : F) (f : Fence)
    (r : OpResult (FenceSignalFutureState F) Unit) : Prop :=
  r = .ok (.Flushed p f) ()
  ∨ (∃ e, r = .err (.Pending p f) e)
  ∨ (∃ e, r = .err (.PartiallyFlushed p f) e)

/-- Follows the words of the spec claim about state transitions: the state either
stays put or moves along Pending to Flushed, Pending to PartiallyFlushed,
PartiallyFlushed to Flushed, Flushed to Cleaned, and Poisonned may only be entered
by a panicked transition. -/
def specTransition (st st2 : FenceSignalFutureState F) (panicked : Bool) : Prop :=
  st = st2
  ∨ (∃ p f, st = .Pending p f ∧ st2 = .Flushed p f)
  ∨ (∃ p f, st = .Pending p f ∧ st2 = .PartiallyFlushed p f)
  ∨ (∃ p f, st = .PartiallyFlushed p f ∧ st2 = .Flushed p f)
  ∨ (∃ p f, st = .Flushed p f ∧ st2 = .Cleaned)
  ∨ (st2 = .Poisonned ∧ panicked = true)

/-- The amended transition relation: like specTransition, except that Poisonned may
be entered whenever the operation did not return Ok, which covers both panics and
the error-propagation path of flush_impl in which the try on the predecessor
build_submission returns while the Poisonned placeholder is still in place. -/
def amendedTransition (st st2 : FenceSignalFutureState F) (notOk : Bool) : Prop :=
  st = st2
  ∨ (∃ p f, st = .Pending p f ∧ st2 = .Flushed p f)
  ∨ (∃ p f, st = .Pending p f ∧ st2 = .PartiallyFlushed p f)
  ∨ (∃ p f, st = .PartiallyFlushed p f ∧ st2 = .Flushed p f)
  ∨ (∃ p f, st = .Flushed p f ∧ st2 = .Cleaned)
  ∨ (st2 = .Poisonned ∧ notOk = true)

/-- Upper bound on the number of successful queue submits (with or without the
fence attached) the node can still perform from a given state: one before the
state machine reaches Flushed, none afterwards. The same bound applies to the
subset of submits that carry the fence. -/
def submitBudget : FenceSignalFutureState F → Nat
  | .Pending _ _ => 1
  | .PartiallyFlushed _ _ => 1
  | _ => 0

/-- Upper bound on the number of successful presents the node can still perform:
one in Pending, none once the present step is behind (PartiallyFlushed) or the
node is flushed. -/
def presentBudget : FenceSignalFutureState F → Nat
  | .Pending _ _ => 1
  | _ => 0

/-- The accumulator a build_submission call returned, when it returned Ok. -/
def okBuilderOf : OpResult σ SubmitAnyBuilder → Option SubmitAnyBuilder
  | .ok _ b => Option.some b
  | _ => Option.none

/-- Sample flush environment in which every device interaction succeeds and the
predecessor reports queue zero and an Empty accumulator. -/
def envAllOk : FlushEnv :=
  ⟨Option.some 0, .ok .Empty, .ok (), .ok (), .ok (), .ok (), .ok ()⟩

/-- Sample flush environment in which the predecessor build_submission fails with
error seven while every device interaction would succeed. -/
def envBuildErr : FlushEnv :=
  ⟨Option.some 0, .error 7, .ok (), .ok (), .ok (), .ok (), .ok ()⟩

/-- Sample build environment on top of envAllOk with a succeeding fence wait. -/
def buildEnvOk : BuildEnv := ⟨envAllOk, .ok ()⟩

/-- Sample join environment with distinct queues and succeeding submits. -/
def joinEnvOk : JoinEnv := ⟨Option.some 0, Option.some 1, .ok (), .ok ()⟩

/-- Sample command-buffer submit builder holding one command buffer. -/
def cbSample : SubmitCommandBufferBuilder := ⟨false, [], [3]⟩

/-- Sample present submit builder. -/
def prSample : SubmitPresentBuilder := ⟨[4]⟩

/-- Sample raw command-buffer builder owned by device zero. -/
def builderSample : RawCommandBufferBuilder := ⟨0, []⟩

/-- Sample bind command whose buffers belong to device one. -/
def cmdMismatch : CmdBindVertexBuffers := ⟨[5], [0], 1⟩

/-!
Theorems settling the claims.
-/

/-- C9: for both PipelineStages and AccessFlagBits, bitwise or is commutative,
associative and idempotent, and the all-false bitset none is a two-sided
identity. -/
theorem pipeline_bitsets_or_properties :
    (∀ a b : PipelineStages, a.bitor b = b.bitor a)
    ∧ (∀ a b c : PipelineStages, (a.bitor b).bitor c = a.bitor (b.bitor c))
    ∧ (∀ a : PipelineStages, a.bitor a = a)
    ∧ (∀ a : PipelineStages,
        a.bitor PipelineStages.none = a ∧ PipelineStages.none.bitor a = a)
    ∧ (∀ a b : AccessFlagBits, a.bitor b = b.bitor a)
    ∧ (∀ a b c : AccessFlagBits, (a.bitor b).bitor c = a.bitor (b.bitor c))
    ∧ (∀ a : AccessFlagBits, a.bitor a = a)
    ∧ (∀ a : AccessFlagBits,
        a.bitor AccessFlagBits.none = a ∧ AccessFlagBits.none.bitor a = a) := by
  refine ⟨?_, ?_, ?_, ?_, ?_, ?_, ?_, ?_⟩
  · intro a b
    cases a; cases b
    simp [PipelineStages.bitor, Bool.or_comm]
  · intro a b c
    cases a; cases b; cases c
    simp [PipelineStages.bitor, Bool.or_assoc]
  · intro a
    cases a
    simp [PipelineStages.bitor]
  · intro a
    cases a
    constructor <;> simp [PipelineStages.bitor, PipelineStages.none]
  · intro a b
    cases a; cases b
    simp [AccessFlagBits.bitor, Bool.or_comm]
  · intro a b c
    cases a; cases b; cases c
    simp [AccessFlagBits.bitor, Bool.or_assoc]
  · intro a
    cases a
    simp [AccessFlagBits.bitor]
  · intro a
    cases a
    constructor <;> simp [AccessFlagBits.bitor, AccessFlagBits.none]

/-- C10: queue selection of JoinFuture handles the cases the spec rule leaves out:
one reported queue wins, two distinct queues with no change allowed give None, and
with the first side allowing a change the queue of the second side is preferred. -/
theorem join_queue_cases :
    (∀ (q : Queue) (a1 a2 : Bool),
      JoinFuture.queue (Option.some q) Option.none a1 a2 = Option.some q
      ∧ JoinFuture.queue Option.none (Option.some q) a1 a2 = Option.some q)
    ∧ (∀ q1 q2 : Queue, Queue.is_same q1 q2 = false →
      JoinFuture.queue (Option.some q1) (Option.some q2) false false = Option.none)
    ∧ (∀ (q1 q2 : Queue) (a2 : Bool), Queue.is_same q1 q2 = false →
      JoinFuture.queue (Option.some q1) (Option.some q2) true a2
        = Option.some q2) := by
  refine ⟨fun q a1 a2 => ⟨rfl, rfl⟩, ?_, ?_⟩
  · intro q1 q2 h
    simp [JoinFuture.queue, h]
  · intro q1 q2 a2 h
    simp [JoinFuture.queue, h]

/-- Witness for C10 at queues zero and one. -/
theorem join_queue_cases_witness :
    (Queue.is_same 0 1 = false
      ∧ JoinFuture.queue (Option.some 0) (Option.some 1) false false = Option.none)
    ∧ (Queue.is_same 0 1 = false
      ∧ JoinFuture.queue (Option.some 0) (Option.some 1) true false
          = Option.some 1) :=
  ⟨⟨by decide, join_queue_cases.2.1 0 1 (by decide)⟩,
   ⟨by decide, join_queue_cases.2.2 0 1 false (by decide)⟩⟩

/-- C5: the access checks of JoinFuture combine the answers of the two
predecessors as claimed: the single Ok side wins, two Err give Err, two usage
records are joined by bitwise union of stages and access flags, and the debug
assertion fires exactly when exclusive access is requested and both sides answer
Ok. -/
theorem join_check_access_combination :
    (∀ (excl : Bool) (v : Option (PipelineStages × AccessFlagBits)) (u : Unit),
      JoinFuture.check_buffer_access excl (.ok v) (.error u) = (false, .ok v)
      ∧ JoinFuture.check_buffer_access excl (.error u) (.ok v) = (false, .ok v)
      ∧ JoinFuture.check_image_access excl (.ok v) (.error u) = (false, .ok v)
      ∧ JoinFuture.check_image_access excl (.error u) (.ok v) = (false, .ok v))
    ∧ (∀ excl : Bool,
      JoinFuture.check_buffer_access excl (.error ()) (.error ())
        = (false, .error ())
      ∧ JoinFuture.check_image_access excl (.error ()) (.error ())
        = (false, .error ()))
    ∧ (∀ (excl : Bool) (a1 b1 : PipelineStages) (a2 b2 : AccessFlagBits),
      JoinFuture.check_buffer_access excl (.ok (Option.some (a1, a2)))
          (.ok (Option.some (b1, b2)))
        = (excl, .ok (Option.some (a1.bitor b1, a2.bitor b2)))
      ∧ JoinFuture.check_image_access excl (.ok (Option.some (a1, a2)))
          (.ok (Option.some (b1, b2)))
        = (excl, .ok (Option.some (a1.bitor b1, a2.bitor b2))))
    ∧ (∀ x y : Option (PipelineStages × AccessFlagBits),
      (JoinFuture.check_buffer_access true (.ok x) (.ok y)).1 = true
      ∧ (JoinFuture.check_image_access true (.ok x) (.ok y)).1 = true) := by
  refine ⟨?_, ?_, ?_, ?_⟩
  · intro excl v u
    refine ⟨?_, ?_, ?_, ?_⟩ <;>
      simp [JoinFuture.check_buffer_access, JoinFuture.check_image_access,
        accessIsOk]
  · intro excl
    constructor <;>
      simp [JoinFuture.check_buffer_access, JoinFuture.check_image_access,
        accessIsOk]
  · intro excl a1 b1 a2 b2
    constructor <;>
      simp [JoinFuture.check_buffer_access, JoinFuture.check_image_access,
        accessIsOk]
  · intro x y
    constructor <;>
      simp [JoinFuture.check_buffer_access, JoinFuture.check_image_access,
        accessIsOk]

/-- C6: in the merge of JoinFuture::build_submission, Empty is a two-sided
identity for every accumulator variant, and those arms perform no eager device
submission. -/
theorem join_merge_empty_identity :
    ∀ (env : JoinEnv) (x : SubmitAnyBuilder),
      JoinFuture.build_submission_merge env .Empty x = (.ok x, [])
      ∧ JoinFuture.build_submission_merge env x .Empty = (.ok x, []) := by
  intro env x
  cases x <;> exact ⟨rfl, rfl⟩

/-- C7 counterexample: at the CommandBuffer versus QueuePresent cells the merge
does not return an error at all, in either order: it panics, because the source
marks both cells unimplemented. -/
theorem join_merge_unspecified_not_error :
    ((JoinFuture.build_submission_merge joinEnvOk (.CommandBuffer cbSample)
        (.QueuePresent prSample)).1.isErrResult = false
      ∧ (JoinFuture.build_submission_merge joinEnvOk (.CommandBuffer cbSample)
        (.QueuePresent prSample)).1 = .panic)
    ∧ ((JoinFuture.build_submission_merge joinEnvOk (.QueuePresent prSample)
        (.CommandBuffer cbSample)).1.isErrResult = false
      ∧ (JoinFuture.build_submission_merge joinEnvOk (.QueuePresent prSample)
        (.CommandBuffer cbSample)).1 = .panic) := by
  decide

/-- C7 as amended: when the merge of JoinFuture::build_submission encounters a
CommandBuffer accumulator on one side and a QueuePresent accumulator on the other,
in either order, it panics through the unimplemented marker of the source, without
guessing a merged accumulator and without touching the device. -/
theorem join_merge_unspecified_panics :
    ∀ (env : JoinEnv) (cb : SubmitCommandBufferBuilder)
      (pr : SubmitPresentBuilder),
      JoinFuture.build_submission_merge env (.CommandBuffer cb) (.QueuePresent pr)
        = (.panic, [])
      ∧ JoinFuture.build_submission_merge env (.QueuePresent pr)
          (.CommandBuffer cb) = (.panic, []) :=
  fun _env _cb _pr => ⟨rfl, rfl⟩

/-- C8: evaluation of the source at a device mismatch. Binding a vertex-buffer
command whose buffers belong to device one into a builder owned by device zero is
accepted with Ok and the native call recorded; no comparison of the two devices is
performed anywhere in the add implementation, although the command stores the
buffer device for exactly that comparison. -/
theorem add_bind_vertex_buffers_ignores_device_mismatch :
    builderSample.device ≠ cmdMismatch.device
    ∧ RawCommandBufferBuilder.addBindVertexBuffers builderSample cmdMismatch
        = .ok ⟨0, [([5], [0])]⟩ := by
  decide

/-- Helper: build_submission only ever hands out the Empty accumulator when it
returns Ok. -/
theorem build_sub_empty_aux {F : Type} (env : BuildEnv)
    (st : FenceSignalFutureState F) :
    okBuilderOf (FenceSignalFuture.build_submission env st).1 = Option.none
    ∨ okBuilderOf (FenceSignalFuture.build_submission env st).1
        = Option.some .Empty := by
  rcases hf : FenceSignalFuture.flush_impl env.flushEnv st with ⟨r, tr⟩
  unfold FenceSignalFuture.build_submission
  rw [hf]
  cases r with
  | ok st1 v =>
    cases st1 <;> cases hw : env.fenceWaitOutcome <;> simp [okBuilderOf]
  | err st1 e => simp [okBuilderOf]
  | panic st1 => simp [okBuilderOf]

/-- C4: whenever build_submission on a fence-signal future returns Ok, the
returned accumulator is Empty, and the shared reference-counted wrapper, which
delegates, returns exactly the same Empty answer; the last two conjuncts evaluate
a run in which the submission actually happened, showing that a second
build_submission performs no further submit. -/
theorem build_submission_returns_empty {F : Type} :
    (∀ (env : BuildEnv) (st : FenceSignalFutureState F),
      okBuilderOf (FenceSignalFuture.build_submission env st).1 = Option.none
      ∨ okBuilderOf (FenceSignalFuture.build_submission env st).1
          = Option.some .Empty)
    ∧ (∀ (env : BuildEnv) (st : FenceSignalFutureState F),
      okBuilderOf (ArcFenceSignalFuture.build_submission env st).1 = Option.none
      ∨ okBuilderOf (ArcFenceSignalFuture.build_submission env st).1
          = Option.some .Empty)
    ∧ FenceSignalFuture.build_submission buildEnvOk (.Pending (0 : Nat) 0)
        = (.ok (.Flushed 0 0) .Empty, [.submit true true])
    ∧ ArcFenceSignalFuture.build_submission buildEnvOk
        (.Flushed (0 : Nat) 0) = (.ok (.Flushed 0 0) .Empty, []) :=
  ⟨fun env st => build_sub_empty_aux env st,
   fun env st => build_sub_empty_aux env st,
   by decide, by decide⟩

/-- C1 counterexample: from the Pending state, with a predecessor whose
build_submission fails, flush_impl ends in none of the three outcomes the spec
lists: the error is propagated by try while the Poisonned placeholder is still in
the state. -/
theorem flush_impl_spec_outcome_fails :
    ¬ flushSpecOutcome (0 : Nat) 0
        (FenceSignalFuture.flush_impl envBuildErr (.Pending 0 0)).1 := by
  intro h
  rcases h with h | ⟨e, h⟩ | ⟨e, h⟩ <;>
    simp [FenceSignalFuture.flush_impl, FenceSignalFuture.flush_impl_dispatch,
      envBuildErr, flushSpecOutcome] at h

/-- C1 as amended: from Pending or PartiallyFlushed, flush_impl ends in success
with state Flushed, a full failure with state Pending and the error returned, a
partial failure with state PartiallyFlushed and the error returned, a propagated
predecessor build_submission error with state Poisonned, or a panic with state
Poisonned; a partial failure only arises when the predecessor accumulator is
QueuePresent; and a retry from PartiallyFlushed performs no present, only the
fence-only submission. -/
theorem flush_impl_outcomes {F : Type} (env : FlushEnv) (p : F) (f : Fence)
    (st : FenceSignalFutureState F)
    (h : st = .Pending p f ∨ st = .PartiallyFlushed p f) :
    ((FenceSignalFuture.flush_impl env st).1 = .ok (.Flushed p f) ()
      ∨ (∃ e, (FenceSignalFuture.flush_impl env st).1 = .err (.Pending p f) e)
      ∨ (∃ e,
          (FenceSignalFuture.flush_impl env st).1 = .err (.PartiallyFlushed p f) e)
      ∨ (∃ e, (FenceSignalFuture.flush_impl env st).1 = .err .Poisonned e
          ∧ env.prevBuild = .error e)
      ∨ (FenceSignalFuture.flush_impl env st).1 = .panic .Poisonned)
    ∧ (∀ e,
        (FenceSignalFuture.flush_impl env st).1 = .err (.PartiallyFlushed p f) e →
        ∃ pb, env.prevBuild = .ok (.QueuePresent pb))
    ∧ (st = .PartiallyFlushed p f →
        ∀ ev ∈ (FenceSignalFuture.flush_impl env st).2,
          ev = .submit true true ∨ ev = .submit true false) := by
  obtain ⟨pq, pb, se, ss, sc, sp, sf⟩ := env
  rcases h with h | h <;> subst h <;>
  · cases pq with
    | none =>
      simp [FenceSignalFuture.flush_impl, FenceSignalFuture.flush_impl_dispatch]
    | some q =>
      rcases pb with e | sab
      · simp [FenceSignalFuture.flush_impl,
          FenceSignalFuture.flush_impl_dispatch]
      · cases sab with
        | Empty =>
          cases se <;>
            simp [FenceSignalFuture.flush_impl,
              FenceSignalFuture.flush_impl_dispatch]
        | SemaphoresWait sem =>
          cases ss <;>
            simp [FenceSignalFuture.flush_impl,
              FenceSignalFuture.flush_impl_dispatch]
        | CommandBuffer cb =>
          obtain ⟨hf, ws, cbs⟩ := cb
          cases hf <;> cases sc <;>
            simp [FenceSignalFuture.flush_impl,
              FenceSignalFuture.flush_impl_dispatch]
        | QueuePresent pr =>
          cases sp <;> cases sf <;>
            simp [FenceSignalFuture.flush_impl,
              FenceSignalFuture.flush_impl_dispatch]

/-- Witness for C1 as amended, at the all-succeeding environment from the Pending
state: the first outcome, success into Flushed, is the one taken. -/
theorem flush_impl_outcomes_witness :
    ((FenceSignalFutureState.Pending (0 : Nat) 0) = .Pending 0 0
      ∨ (FenceSignalFutureState.Pending (0 : Nat) 0) = .PartiallyFlushed 0 0)
    ∧ (((FenceSignalFuture.flush_impl envAllOk (.Pending (0 : Nat) 0)).1
          = .ok (.Flushed 0 0) ()
        ∨ (∃ e, (FenceSignalFuture.flush_impl envAllOk (.Pending (0 : Nat) 0)).1
            = .err (.Pending 0 0) e)
        ∨ (∃ e, (FenceSignalFuture.flush_impl envAllOk (.Pending (0 : Nat) 0)).1
            = .err (.PartiallyFlushed 0 0) e)
        ∨ (∃ e, (FenceSignalFuture.flush_impl envAllOk (.Pending (0 : Nat) 0)).1
            = .err .Poisonned e ∧ envAllOk.prevBuild = .error e)
        ∨ (FenceSignalFuture.flush_impl envAllOk (.Pending (0 : Nat) 0)).1
            = .panic .Poisonned)
      ∧ (∀ e, (FenceSignalFuture.flush_impl envAllOk (.Pending (0 : Nat) 0)).1
            = .err (.PartiallyFlushed 0 0) e →
          ∃ pb, envAllOk.prevBuild = .ok (.QueuePresent pb))
      ∧ ((FenceSignalFutureState.Pending (0 : Nat) 0) = .PartiallyFlushed 0 0 →
          ∀ ev ∈ (FenceSignalFuture.flush_impl envAllOk (.Pending (0 : Nat) 0)).2,
            ev = .submit true true ∨ ev = .submit true false)) :=
  ⟨Or.inl rfl, flush_impl_outcomes envAllOk 0 0 (.Pending 0 0) (Or.inl rfl)⟩

/-- C2 counterexample: flushing a Pending node whose predecessor build_submission
fails moves the state to Poisonned although the operation did not panic, a
transition outside the graph of the spec. -/
theorem fence_transition_outside_spec :
    ¬ specTransition (FenceSignalFutureState.Pending (0 : Nat) 0)
        (opState (FenceSignalFuture.flush_impl envBuildErr (.Pending 0 0)).1)
        (opPanicked (FenceSignalFuture.flush_impl envBuildErr (.Pending 0 0)).1) := by
  intro h
  rcases h with h | ⟨p, f, h1, h2⟩ | ⟨p, f, h1, h2⟩ | ⟨p, f, h1, h2⟩
      | ⟨p, f, h1, h2⟩ | ⟨h1, h2⟩ <;>
    simp [FenceSignalFuture.flush_impl, FenceSignalFuture.flush_impl_dispatch,
      envBuildErr, opState, opPanicked] at *

/-- Helper: every flush_impl call moves the state along the amended transition
relation. -/
theorem flush_impl_transition {F : Type} (fe : FlushEnv)
    (st : FenceSignalFutureState F) :
    amendedTransition st (opState (FenceSignalFuture.flush_impl fe st).1)
      (opNotOk (FenceSignalFuture.flush_impl fe st).1) := by
  obtain ⟨pq, pb, se, ss, sc, sp, sf⟩ := fe
  cases st with
  | Pending p f =>
    cases pq with
    | none =>
      simp [FenceSignalFuture.flush_impl, FenceSignalFuture.flush_impl_dispatch,
        amendedTransition, opState, opNotOk]
    | some q =>
      rcases pb with e | sab
      · simp [FenceSignalFuture.flush_impl,
          FenceSignalFuture.flush_impl_dispatch, amendedTransition, opState,
          opNotOk]
      · cases sab with
        | Empty =>
          cases se <;>
            simp [FenceSignalFuture.flush_impl,
              FenceSignalFuture.flush_impl_dispatch, amendedTransition, opState,
              opNotOk]
        | SemaphoresWait sem =>
          cases ss <;>
            simp [FenceSignalFuture.flush_impl,
              FenceSignalFuture.flush_impl_dispatch, amendedTransition, opState,
              opNotOk]
        | CommandBuffer cb =>
          obtain ⟨hf, ws, cbs⟩ := cb
          cases hf <;> cases sc <;>
            simp [FenceSignalFuture.flush_impl,
              FenceSignalFuture.flush_impl_dispatch, amendedTransition, opState,
              opNotOk]
        | QueuePresent pr =>
          cases sp <;> cases sf <;>
            simp [FenceSignalFuture.flush_impl,
              FenceSignalFuture.flush_impl_dispatch, amendedTransition, opState,
              opNotOk]
  | PartiallyFlushed p f =>
    cases pq with
    | none =>
      simp [FenceSignalFuture.flush_impl, FenceSignalFuture.flush_impl_dispatch,
        amendedTransition, opState, opNotOk]
    | some q =>
      rcases pb with e | sab
      · simp [FenceSignalFuture.flush_impl,
          FenceSignalFuture.flush_impl_dispatch, amendedTransition, opState,
          opNotOk]
      · cases sab with
        | Empty =>
          cases se <;>
            simp [FenceSignalFuture.flush_impl,
              FenceSignalFuture.flush_impl_dispatch, amendedTransition, opState,
              opNotOk]
        | SemaphoresWait sem =>
          cases ss <;>
            simp [FenceSignalFuture.flush_impl,
              FenceSignalFuture.flush_impl_dispatch, amendedTransition, opState,
              opNotOk]
        | CommandBuffer cb =>
          obtain ⟨hf, ws, cbs⟩ := cb
          cases hf <;> cases sc <;>
            simp [FenceSignalFuture.flush_impl,
              FenceSignalFuture.flush_impl_dispatch, amendedTransition, opState,
              opNotOk]
        | QueuePresent pr =>
          cases sp <;> cases sf <;>
            simp [FenceSignalFuture.flush_impl,
              FenceSignalFuture.flush_impl_dispatch, amendedTransition, opState,
              opNotOk]
  | Flushed p f =>
    simp [FenceSignalFuture.flush_impl, amendedTransition, opState, opNotOk]
  | Cleaned =>
    simp [FenceSignalFuture.flush_impl, amendedTransition, opState, opNotOk]
  | Poisonned =>
    simp [FenceSignalFuture.flush_impl, amendedTransition, opState, opNotOk]

/-- Helper: the transition relation only reads its flag in the Poisonned entry
clause, so it is monotone in the flag. -/
theorem amendedTransition_mono {F : Type} {st st2 : FenceSignalFutureState F}
    {b b2 : Bool} (h : amendedTransition st st2 b) (hb : b = true → b2 = true) :
    amendedTransition st st2 b2 := by
  rcases h with h | h | h | h | h | ⟨h1, h2⟩
  · left; exact h
  · right; left; exact h
  · right; right; left; exact h
  · right; right; right; left; exact h
  · right; right; right; right; left; exact h
  · right; right; right; right; right; exact ⟨h1, hb h2⟩

/-- Helper: build_submission leaves the state exactly where its inner flush_impl
left it, and it is not Ok whenever the inner flush_impl was not. -/
theorem build_submission_state_flag {F : Type} (env : BuildEnv)
    (st : FenceSignalFutureState F) :
    opState (FenceSignalFuture.build_submission env st).1
      = opState (FenceSignalFuture.flush_impl env.flushEnv st).1
    ∧ (opNotOk (FenceSignalFuture.flush_impl env.flushEnv st).1 = true →
        opNotOk (FenceSignalFuture.build_submission env st).1 = true) := by
  rcases hf : FenceSignalFuture.flush_impl env.flushEnv st with ⟨r, tr⟩
  unfold FenceSignalFuture.build_submission
  rw [hf]
  cases r with
  | ok st1 v =>
    cases st1 <;> cases hw : env.fenceWaitOutcome <;>
      simp [opState, opNotOk]
  | err st1 e => simp [opState, opNotOk]
  | panic st1 => simp [opState, opNotOk]

/-- C2 as amended: every operation moves the fence-signal state only along the
transitions Pending to Flushed, Pending to PartiallyFlushed, PartiallyFlushed to
Flushed and Flushed to Cleaned, staying put otherwise, except that Poisonned is
entered when the operation does not return Ok (a panicked transition, or flush
propagating a predecessor build_submission failure); and the Cleaned and Poisonned
states are never left by flush, build_submission, cleanup_finished or
signal_finished. Drop consumes the node: its observable outcome is an action, not
a successor state. -/
theorem fence_state_transitions_amended {F : Type} (fe : FlushEnv)
    (be : BuildEnv) (w : Except Err Unit) (st : FenceSignalFutureState F) :
    amendedTransition st (opState (FenceSignalFuture.flush_impl fe st).1)
      (opNotOk (FenceSignalFuture.flush_impl fe st).1)
    ∧ amendedTransition st (opState (FenceSignalFuture.build_submission be st).1)
        (opNotOk (FenceSignalFuture.build_submission be st).1)
    ∧ amendedTransition st (FenceSignalFuture.cleanup_finished_impl w st) false
    ∧ amendedTransition st (FenceSignalFuture.signal_finished st).2 false
    ∧ opState (FenceSignalFuture.flush_impl fe
        (.Cleaned : FenceSignalFutureState F)).1 = .Cleaned
    ∧ opState (FenceSignalFuture.flush_impl fe
        (.Poisonned : FenceSignalFutureState F)).1 = .Poisonned
    ∧ opState (FenceSignalFuture.build_submission be
        (.Cleaned : FenceSignalFutureState F)).1 = .Cleaned
    ∧ opState (FenceSignalFuture.build_submission be
        (.Poisonned : FenceSignalFutureState F)).1 = .Poisonned
    ∧ FenceSignalFuture.cleanup_finished_impl w
        (.Cleaned : FenceSignalFutureState F) = .Cleaned
    ∧ FenceSignalFuture.cleanup_finished_impl w
        (.Poisonned : FenceSignalFutureState F) = .Poisonned
    ∧ (FenceSignalFuture.signal_finished
        (.Cleaned : FenceSignalFutureState F)).2 = .Cleaned
    ∧ (FenceSignalFuture.signal_finished
        (.Poisonned : FenceSignalFutureState F)).2 = .Poisonned := by
  refine ⟨flush_impl_transition fe st, ?_, ?_, ?_, rfl, rfl, rfl, rfl, rfl, rfl,
    rfl, rfl⟩
  · have hs := build_submission_state_flag be st
    have ht := flush_impl_transition be.flushEnv st
    rw [hs.1]
    by_cases hnot :
        opNotOk (FenceSignalFuture.flush_impl be.flushEnv st).1 = true
    · exact amendedTransition_mono ht (fun _ => hs.2 hnot)
    · refine amendedTransition_mono ht ?_
      intro hcontra
      exact absurd hcontra hnot
  · cases st with
    | Flushed p f =>
      cases w with
      | ok u =>
        exact Or.inr (Or.inr (Or.inr (Or.inr (Or.inl ⟨p, f, rfl, rfl⟩))))
      | error e => exact Or.inl rfl
    | Pending p f => exact Or.inl rfl
    | PartiallyFlushed p f => exact Or.inl rfl
    | Cleaned => exact Or.inl rfl
    | Poisonned => exact Or.inl rfl
  · cases st <;> exact Or.inl rfl

/-- Helper: successful fence submits count distributes over concatenation. -/
theorem countFenceOk_append (a b : List SubmitEvent) :
    countFenceOk (a ++ b) = countFenceOk a + countFenceOk b := by
  induction a with
  | nil => simp [countFenceOk]
  | cons h t ih =>
    cases h with
    | submit wf ok =>
      cases wf <;> cases ok <;> simp [countFenceOk, ih, Nat.add_right_comm]
    | present ok => cases ok <;> simp [countFenceOk, ih]

/-- Helper: successful present count distributes over concatenation. -/
theorem countPresentOk_append (a b : List SubmitEvent) :
    countPresentOk (a ++ b) = countPresentOk a + countPresentOk b := by
  induction a with
  | nil => simp [countPresentOk]
  | cons h t ih =>
    cases h with
    | submit wf ok =>
      cases wf <;> cases ok <;> simp [countPresentOk, ih]
    | present ok => cases ok <;> simp [countPresentOk, ih, Nat.add_right_comm]

/-- Helper: successful queue-submit count distributes over concatenation. -/
theorem countSubmitOk_append (a b : List SubmitEvent) :
    countSubmitOk (a ++ b) = countSubmitOk a + countSubmitOk b := by
  induction a with
  | nil => simp [countSubmitOk]
  | cons h t ih =>
    cases h with
    | submit wf ok =>
      cases wf <;> cases ok <;> simp [countSubmitOk, ih, Nat.add_right_comm]
    | present ok => cases ok <;> simp [countSubmitOk, ih]

/-- Helper: one flush call consumes at most the submission budget of its starting
state, for the fence-carrying submits, for the presents and for the queue submits
as a whole (the last bound also covers the fence-less submit of the
SemaphoresWait arm). -/
theorem flush_call_budget {F : Type} (env : FlushEnv)
    (st : FenceSignalFutureState F) :
    countFenceOk (FenceSignalFuture.flush_impl env st).2
      + submitBudget (opState (FenceSignalFuture.flush_impl env st).1)
      ≤ submitBudget st
    ∧ countPresentOk (FenceSignalFuture.flush_impl env st).2
      + presentBudget (opState (FenceSignalFuture.flush_impl env st).1)
      ≤ presentBudget st
    ∧ countSubmitOk (FenceSignalFuture.flush_impl env st).2
      + submitBudget (opState (FenceSignalFuture.flush_impl env st).1)
      ≤ submitBudget st := by
  obtain ⟨pq, pb, se, ss, sc, sp, sf⟩ := env
  cases st with
  | Pending p f =>
    cases pq with
    | none =>
      simp [FenceSignalFuture.flush_impl, FenceSignalFuture.flush_impl_dispatch,
        countFenceOk, countPresentOk, countSubmitOk, submitBudget,
        presentBudget, opState]
    | some q =>
      rcases pb with e | sab
      · simp [FenceSignalFuture.flush_impl,
          FenceSignalFuture.flush_impl_dispatch, countFenceOk, countPresentOk,
          countSubmitOk, submitBudget, presentBudget, opState]
      · cases sab with
        | Empty =>
          cases se <;>
            simp [FenceSignalFuture.flush_impl,
              FenceSignalFuture.flush_impl_dispatch, countFenceOk,
              countPresentOk, countSubmitOk, submitBudget, presentBudget,
              opState]
        | SemaphoresWait sem =>
          cases ss <;>
            simp [FenceSignalFuture.flush_impl,
              FenceSignalFuture.flush_impl_dispatch, countFenceOk,
              countPresentOk, countSubmitOk, submitBudget, presentBudget,
              opState]
        | CommandBuffer cb =>
          obtain ⟨hf, ws, cbs⟩ := cb
          cases hf <;> cases sc <;>
            simp [FenceSignalFuture.flush_impl,
              FenceSignalFuture.flush_impl_dispatch, countFenceOk,
              countPresentOk, countSubmitOk, submitBudget, presentBudget,
              opState]
        | QueuePresent pr =>
          cases sp <;> cases sf <;>
            simp [FenceSignalFuture.flush_impl,
              FenceSignalFuture.flush_impl_dispatch, countFenceOk,
              countPresentOk, countSubmitOk, submitBudget, presentBudget,
              opState]
  | PartiallyFlushed p f =>
    cases pq with
    | none =>
      simp [FenceSignalFuture.flush_impl, FenceSignalFuture.flush_impl_dispatch,
        countFenceOk, countPresentOk, countSubmitOk, submitBudget,
        presentBudget, opState]
    | some q =>
      rcases pb with e | sab
      · simp [FenceSignalFuture.flush_impl,
          FenceSignalFuture.flush_impl_dispatch, countFenceOk, countPresentOk,
          countSubmitOk, submitBudget, presentBudget, opState]
      · cases sab with
        | Empty =>
          cases se <;>
            simp [FenceSignalFuture.flush_impl,
              FenceSignalFuture.flush_impl_dispatch, countFenceOk,
              countPresentOk, countSubmitOk, submitBudget, presentBudget,
              opState]
        | SemaphoresWait sem =>
          cases ss <;>
            simp [FenceSignalFuture.flush_impl,
              FenceSignalFuture.flush_impl_dispatch, countFenceOk,
              countPresentOk, countSubmitOk, submitBudget, presentBudget,
              opState]
        | CommandBuffer cb =>
          obtain ⟨hf, ws, cbs⟩ := cb
          cases hf <;> cases sc <;>
            simp [FenceSignalFuture.flush_impl,
              FenceSignalFuture.flush_impl_dispatch, countFenceOk,
              countPresentOk, countSubmitOk, submitBudget, presentBudget,
              opState]
        | QueuePresent pr =>
          cases sp <;> cases sf <;>
            simp [FenceSignalFuture.flush_impl,
              FenceSignalFuture.flush_impl_dispatch, countFenceOk,
              countPresentOk, countSubmitOk, submitBudget, presentBudget,
              opState]
  | Flushed p f =>
    simp [FenceSignalFuture.flush_impl, countFenceOk, countPresentOk,
      countSubmitOk, submitBudget, presentBudget, opState]
  | Cleaned =>
    simp [FenceSignalFuture.flush_impl, countFenceOk, countPresentOk,
      countSubmitOk, submitBudget, presentBudget, opState]
  | Poisonned =>
    simp [FenceSignalFuture.flush_impl, countFenceOk, countPresentOk,
      countSubmitOk, submitBudget, presentBudget, opState]

/-- Helper: any sequence of flush calls consumes at most the budget of the
starting state. -/
theorem flushMany_budget {F : Type} (envs : List FlushEnv)
    (st : FenceSignalFutureState F) :
    countFenceOk (FenceSignalFuture.flushMany envs st).2
      + submitBudget (FenceSignalFuture.flushMany envs st).1 ≤ submitBudget st
    ∧ countPresentOk (FenceSignalFuture.flushMany envs st).2
      + presentBudget (FenceSignalFuture.flushMany envs st).1
      ≤ presentBudget st
    ∧ countSubmitOk (FenceSignalFuture.flushMany envs st).2
      + submitBudget (FenceSignalFuture.flushMany envs st).1
      ≤ submitBudget st := by
  induction envs generalizing st with
  | nil =>
    simp [FenceSignalFuture.flushMany, countFenceOk, countPresentOk,
      countSubmitOk]
  | cons e es ih =>
    have hc := flush_call_budget e st
    have hrest := ih (opState (FenceSignalFuture.flush_impl e st).1)
    simp only [FenceSignalFuture.flushMany, countFenceOk_append,
      countPresentOk_append, countSubmitOk_append]
    refine ⟨?_, ?_, ?_⟩ <;> omega

/-- Helper: the per-side projection of a tagged trace distributes over
concatenation. -/
theorem sideEvents_append (side : Bool) (a b : List (Bool × SubmitEvent)) :
    sideEvents side (a ++ b) = sideEvents side a ++ sideEvents side b := by
  simp [sideEvents]

/-- Helper: projecting the side a trace was tagged with recovers the trace. -/
theorem sideEvents_map_ff (tr : List SubmitEvent) :
    sideEvents false (tr.map (fun ev => (false, ev))) = tr := by
  induction tr with
  | nil => rfl
  | cons h t ih => simpa [sideEvents] using ih

/-- Helper: projecting the other side of a first-side trace gives nothing. -/
theorem sideEvents_map_tf (tr : List SubmitEvent) :
    sideEvents true (tr.map (fun ev => (false, ev))) = [] := by
  induction tr with
  | nil => rfl
  | cons h t ih => simp [sideEvents]

/-- Helper: projecting the side a trace was tagged with recovers the trace, second
side. -/
theorem sideEvents_map_tt (tr : List SubmitEvent) :
    sideEvents true (tr.map (fun ev => (true, ev))) = tr := by
  induction tr with
  | nil => rfl
  | cons h t ih => simpa [sideEvents] using ih

/-- Helper: projecting the other side of a second-side trace gives nothing. -/
theorem sideEvents_map_ft (tr : List SubmitEvent) :
    sideEvents false (tr.map (fun ev => (true, ev))) = [] := by
  induction tr with
  | nil => rfl
  | cons h t ih => simp [sideEvents]

/-- Helper: one flush call on a join of two fence-signal nodes consumes at most
the budgets of the two children, counting every successful queue submit and every
successful present of each side. -/
theorem join_flush_call_budget {F G : Type} (e1 e2 : FlushEnv)
    (s : FenceSignalFutureState F × FenceSignalFutureState G) :
    countSubmitOk (sideEvents false (JoinFuture.flush e1 e2 s).2)
      + submitBudget (opState (JoinFuture.flush e1 e2 s).1).1 ≤ submitBudget s.1
    ∧ countPresentOk (sideEvents false (JoinFuture.flush e1 e2 s).2)
      + presentBudget (opState (JoinFuture.flush e1 e2 s).1).1
      ≤ presentBudget s.1
    ∧ countSubmitOk (sideEvents true (JoinFuture.flush e1 e2 s).2)
      + submitBudget (opState (JoinFuture.flush e1 e2 s).1).2 ≤ submitBudget s.2
    ∧ countPresentOk (sideEvents true (JoinFuture.flush e1 e2 s).2)
      + presentBudget (opState (JoinFuture.flush e1 e2 s).1).2
      ≤ presentBudget s.2 := by
  have hc1 := flush_call_budget e1 s.1
  have hc2 := flush_call_budget e2 s.2
  rcases h1 : FenceSignalFuture.flush_impl e1 s.1 with ⟨r1, tr1⟩
  rw [h1] at hc1
  unfold JoinFuture.flush
  rw [h1]
  cases r1 with
  | err st1 e =>
    simp only [sideEvents_map_ff, sideEvents_map_tf, opState, countSubmitOk,
      countPresentOk] at hc1 ⊢
    refine ⟨?_, ?_, ?_, ?_⟩ <;> omega
  | panic st1 =>
    simp only [sideEvents_map_ff, sideEvents_map_tf, opState, countSubmitOk,
      countPresentOk] at hc1 ⊢
    refine ⟨?_, ?_, ?_, ?_⟩ <;> omega
  | ok st1 v =>
    simp only [opState] at hc1
    rcases h2 : FenceSignalFuture.flush_impl e2 s.2 with ⟨r2, tr2⟩
    rw [h2] at hc2
    cases r2 with
    | ok st2 v2 =>
      simp only [sideEvents_append, sideEvents_map_ff, sideEvents_map_tf,
        sideEvents_map_tt, sideEvents_map_ft, countSubmitOk_append,
        countPresentOk_append, opState, countSubmitOk, countPresentOk,
        List.append_nil, List.nil_append] at hc2 ⊢
      refine ⟨?_, ?_, ?_, ?_⟩ <;> omega
    | err st2 e2x =>
      simp only [sideEvents_append, sideEvents_map_ff, sideEvents_map_tf,
        sideEvents_map_tt, sideEvents_map_ft, countSubmitOk_append,
        countPresentOk_append, opState, countSubmitOk, countPresentOk,
        List.append_nil, List.nil_append] at hc2 ⊢
      refine ⟨?_, ?_, ?_, ?_⟩ <;> omega
    | panic st2 =>
      simp only [sideEvents_append, sideEvents_map_ff, sideEvents_map_tf,
        sideEvents_map_tt, sideEvents_map_ft, countSubmitOk_append,
        countPresentOk_append, opState, countSubmitOk, countPresentOk,
        List.append_nil, List.nil_append] at hc2 ⊢
      refine ⟨?_, ?_, ?_, ?_⟩ <;> omega

/-- Helper: any sequence of flush calls on a join consumes at most the budgets of
the two children. -/
theorem joinFlushMany_budget {F G : Type} (envs : List (FlushEnv × FlushEnv))
    (s : FenceSignalFutureState F × FenceSignalFutureState G) :
    countSubmitOk (sideEvents false (JoinFuture.flushMany envs s).2)
      + submitBudget (JoinFuture.flushMany envs s).1.1 ≤ submitBudget s.1
    ∧ countPresentOk (sideEvents false (JoinFuture.flushMany envs s).2)
      + presentBudget (JoinFuture.flushMany envs s).1.1 ≤ presentBudget s.1
    ∧ countSubmitOk (sideEvents true (JoinFuture.flushMany envs s).2)
      + submitBudget (JoinFuture.flushMany envs s).1.2 ≤ submitBudget s.2
    ∧ countPresentOk (sideEvents true (JoinFuture.flushMany envs s).2)
      + presentBudget (JoinFuture.flushMany envs s).1.2 ≤ presentBudget s.2 := by
  induction envs generalizing s with
  | nil =>
    simp [JoinFuture.flushMany, sideEvents, countSubmitOk, countPresentOk]
  | cons e es ih =>
    obtain ⟨ea, eb⟩ := e
    have hc := join_flush_call_budget ea eb s
    have hrest := ih (opState (JoinFuture.flush ea eb s).1)
    simp only [JoinFuture.flushMany, sideEvents_append, countSubmitOk_append,
      countPresentOk_append]
    refine ⟨?_, ?_, ?_, ?_⟩ <;> omega

/-- C3: flush is idempotent and the device submission of the work the node owns
happens at most once. From the Flushed, Cleaned and Poisonned states flush_impl
performs no device interaction, leaves the state unchanged and returns Ok; across
any sequence of flush calls a fence-signal node performs at most one successful
queue submit in total, counting submits with and without the fence attached (the
SemaphoresWait arm of the source submits the converted builder without setting
the fence), at most one successful present, and in particular at most one
successful fence-carrying submit; and through a join of two fence-signal nodes,
whose flush flushes both children, the submit and present bounds hold for each
child separately. -/
theorem flush_at_most_one_submission {F G : Type} :
    (∀ (env : FlushEnv) (p : F) (f : Fence),
      FenceSignalFuture.flush_impl env (.Flushed p f)
        = (.ok (.Flushed p f) (), []))
    ∧ (∀ env : FlushEnv,
      FenceSignalFuture.flush_impl env (.Cleaned : FenceSignalFutureState F)
        = (.ok .Cleaned (), []))
    ∧ (∀ env : FlushEnv,
      FenceSignalFuture.flush_impl env (.Poisonned : FenceSignalFutureState F)
        = (.ok .Poisonned (), []))
    ∧ (∀ (envs : List FlushEnv) (st : FenceSignalFutureState F),
      countSubmitOk (FenceSignalFuture.flushMany envs st).2 ≤ 1
      ∧ countPresentOk (FenceSignalFuture.flushMany envs st).2 ≤ 1
      ∧ countFenceOk (FenceSignalFuture.flushMany envs st).2 ≤ 1)
    ∧ (∀ (envs : List (FlushEnv × FlushEnv))
        (s : FenceSignalFutureState F × FenceSignalFutureState G),
      countSubmitOk (sideEvents false (JoinFuture.flushMany envs s).2) ≤ 1
      ∧ countPresentOk (sideEvents false (JoinFuture.flushMany envs s).2) ≤ 1
      ∧ countSubmitOk (sideEvents true (JoinFuture.flushMany envs s).2) ≤ 1
      ∧ countPresentOk (sideEvents true (JoinFuture.flushMany envs s).2) ≤ 1) := by
  refine ⟨fun env p f => rfl, fun env => rfl, fun env => rfl, ?_, ?_⟩
  · intro envs st
    have h := flushMany_budget envs st
    have hb : submitBudget st ≤ 1 ∧ presentBudget st ≤ 1 := by
      cases st <;> simp [submitBudget, presentBudget]
    exact ⟨by omega, by omega, by omega⟩
  · intro envs s
    obtain ⟨s1, s2⟩ := s
    have h := joinFlushMany_budget envs (s1, s2)
    dsimp only at h
    have hb1 : submitBudget s1 ≤ 1 ∧ presentBudget s1 ≤ 1 := by
      cases s1 <;> simp [submitBudget, presentBudget]
    have hb2 : submitBudget s2 ≤ 1 ∧ presentBudget s2 ≤ 1 := by
      cases s2 <;> simp [submitBudget, presentBudget]
    exact ⟨by omega, by omega, by omega, by omega⟩

end Vulkano
